import Mathlib

/-!
Verification development for the per-guild music playback state machine in
`src/cogs/music.py` (the `Music` cog).  The stateful Python code is shallowly
embedded: the `MusicPlayer` record becomes a Lean structure, each operation
becomes a pure state-transformer, wall-clock reads (`time.time()`) become an
explicit `now : ℚ` argument, and transport calls (`vc.stop()` / `vc.play(...)`)
are recorded as an explicit action trace.  Python floats are modelled by `ℚ`
and Python `int()` truncation by `pyInt`.
-/

/-- A resolved track, from class `Song` in `src/cogs/music.py` (lines 69-75).
`duration` is the integer number of seconds reported by the resolver
(`info.get('duration', 0)`), possibly 0 when unknown. -/
structure Song where
  source : String
  title : String
  url : String
  duration : Int
  thumbnail : String
deriving DecidableEq, Repr

/-- Per-guild mutable playback state, from class `MusicPlayer`
(`src/cogs/music.py` lines 88-101).  `queue` is a FIFO deque (front = next to
play), `history` a deque with `maxlen=50` (back = most recent).  The
`player_message` / `text_channel` fields are chat-platform handles irrelevant
to the state-machine claims and are omitted. -/
structure MusicPlayer where
  queue : List Song
  history : List Song
  current : Option Song
  volume : ℚ
  loop_mode : String
  start_time : ℚ
  paused_time : ℚ
  is_paused : Bool
  skip_next_callback : Bool
  retry_count : Nat
deriving DecidableEq, Repr

/-- Python `int()` applied to a float: truncation toward zero. -/
def pyInt (x : ℚ) : Int :=
  if 0 ≤ x then ⌊x⌋ else ⌈x⌉

/-- Appending to a `deque(maxlen=50)`: push at the back, evicting the oldest
(front) element once the bound is reached. -/
def historyAppend (h : List Song) (s : Song) : List Song :=
  let h1 := h ++ [s]
  if 50 < h1.length then h1.drop (h1.length - 50) else h1

namespace Music

/-- The premature-end classifier from `Music.play_next`
(`src/cogs/music.py` lines 454-457):
`(elapsed < 15 and expected_duration > 20) or
 (expected_duration > 0 and elapsed < expected_duration * 0.2 and elapsed < 30)`. -/
def is_premature_end (elapsed expected_duration : ℚ) : Bool :=
  (decide (elapsed < 15) && decide (20 < expected_duration)) ||
  (decide (0 < expected_duration) && decide (elapsed < expected_duration * (0.2 : ℚ))
    && decide (elapsed < 30))

/-- The guard wrapping the classifier in `Music.play_next` (line 448):
`if player.current and player.start_time > 0 and player.retry_count < 2`,
with `elapsed = time.time() - player.start_time` and
`expected_duration = player.current.duration`. -/
def prematureCheck (p : MusicPlayer) (now : ℚ) : Bool :=
  match p.current with
  | some cur =>
      decide (0 < p.start_time) && decide (p.retry_count < 2) &&
        is_premature_end (now - p.start_time) ((cur.duration : ℚ))
  | none => false

/-- What `Music.play_next` did, besides mutating the player state. -/
inductive PlayNextEffect where
  /-- `skip_next_callback` was set: the callback returned immediately after
  clearing the flag (lines 442-444). -/
  | suppressed
  /-- Premature end detected: `_retry_current_song` was scheduled
  (lines 458-466). -/
  | retryScheduled
  /-- Loop mode `one`: the current track was replayed (lines 471-476). -/
  | loopOne
  /-- Queue empty: current cleared, cleanup and the auto-disconnect timer
  scheduled (lines 485-496). -/
  | idleOut
  /-- Normal advance: `s` was popped from the queue and started
  (lines 498-509). -/
  | advanced (s : Song)
deriving DecidableEq, Repr

/-- The tail of `Music.play_next` (lines 485-503): pop the queue head and
start it, or go idle when the queue is empty. -/
def startNextFromQueue (p : MusicPlayer) (now : ℚ) : MusicPlayer × PlayNextEffect :=
  match p.queue with
  | [] => ({ p with current := none }, .idleOut)
  | s :: rest =>
      ({ p with current := some s, queue := rest, start_time := now, is_paused := false },
       .advanced s)

/-- The completion callback `Music.play_next` (`src/cogs/music.py`
lines 434-509), as a pure transformer of the player state at wall-clock time
`now`.  Mirrors the source order: suppression check, premature-end check,
`retry_count = 0`, loop-`one` replay, drain `current` into history, loop-`all`
re-enqueue, then pop-or-idle. -/
def play_next (p : MusicPlayer) (now : ℚ) : MusicPlayer × PlayNextEffect :=
  if p.skip_next_callback then
    ({ p with skip_next_callback := false }, .suppressed)
  else if prematureCheck p now then
    ({ p with retry_count := p.retry_count + 1 }, .retryScheduled)
  else
    let p0 := { p with retry_count := 0 }
    match p0.current with
    | some cur =>
        if p0.loop_mode = "one" then
          ({ p0 with start_time := now }, .loopOne)
        else
          let p1 := { p0 with history := historyAppend p0.history cur }
          let p2 := if p1.loop_mode = "all" then { p1 with queue := p1.queue ++ [cur] } else p1
          startNextFromQueue p2 now
    | none => startNextFromQueue p0 now

/-- A call into the voice transport, in issuance order.  A `stop` records the
values of `skip_next_callback` and `loop_mode` at the instant `vc.stop()` is
issued (these are what the asynchronously-fired completion callback will see);
a `play` records the stream source and the `-ss` start offset in seconds
(0 when the stock `FFMPEG_OPTIONS`, which carry no `-ss`, are used). -/
inductive TransportAction where
  | stop (suppress : Bool) (loopMode : String)
  | play (source : String) (offset : Int)
deriving DecidableEq, Repr

/-- The backoff before a premature-end retry: `await asyncio.sleep(1.0)` in
`Music._retry_current_song` (line 518). -/
def RETRY_BACKOFF : ℚ := 1

/-- What `Music._retry_current_song` did. -/
inductive RetryEffect where
  /-- `player.current` was `None`: returned immediately (lines 514-515). -/
  | noCurrent
  /-- Voice client no longer connected: returned without retrying
  (lines 521-523). -/
  | disconnected
  /-- Re-resolution succeeded: playback restarted with the fresh track
  (lines 527-532).  `query` is the string passed to the resolver. -/
  | restarted (query : String) (fresh : Song)
  /-- Re-resolution failed: `retry_count` was reset to 0 and `play_next` was
  re-entered, with the recorded effect (lines 533-536). -/
  | resolutionFailed (eff : PlayNextEffect)
deriving DecidableEq, Repr

/-- `Music._retry_current_song` (`src/cogs/music.py` lines 511-536), invoked
at wall-clock time `now` (i.e. after the `RETRY_BACKOFF` sleep).  `connected`
is `voice_client.is_connected()`; `resolve` is the track resolver
(`Music.get_song`), queried with the current track's canonical `url`. -/
def retry_current_song (p : MusicPlayer) (connected : Bool)
    (resolve : String → Option Song) (now : ℚ) :
    MusicPlayer × List TransportAction × RetryEffect :=
  match p.current with
  | none => (p, [], .noCurrent)
  | some cur =>
      if !connected then (p, [], .disconnected)
      else
        match resolve cur.url with
        | some fresh =>
            ({ p with current := some fresh, start_time := now },
             [.play fresh.source 0], .restarted cur.url fresh)
        | none =>
            let p1 := { p with retry_count := 0 }
            let r := play_next p1 now
            (r.1, [], .resolutionFailed r.2)

/-- `Music.pause` / the pause half of `PlayerView.pause_resume_button`
(`src/cogs/music.py` lines 727-729 and 200-202): record the pause instant. -/
def pause (p : MusicPlayer) (now : ℚ) : MusicPlayer :=
  { p with paused_time := now, is_paused := true }

/-- `Music.resume` / the resume half of `PlayerView.pause_resume_button`
(`src/cogs/music.py` lines 739-742 and 204-207): shift `start_time` forward
by the pause duration. -/
def resume (p : MusicPlayer) (now : ℚ) : MusicPlayer :=
  { p with start_time := p.start_time + (now - p.paused_time), is_paused := false }

/-- The elapsed-time computation of `Music.create_now_playing_embed`
(`src/cogs/music.py` lines 544-552): 0 before start, frozen at
`paused_time - start_time` while paused, `now - start_time` otherwise,
truncated by `int()` and clamped to `[0, duration]`.  `none` when no track is
loaded (the embed then shows "Nothing Playing"). -/
def display_elapsed (p : MusicPlayer) (now : ℚ) : Option Int :=
  match p.current with
  | none => none
  | some song =>
      let elapsed : Int :=
        if p.start_time = 0 then 0
        else if p.is_paused then pyInt (p.paused_time - p.start_time)
        else pyInt (now - p.start_time)
      some (max 0 (min elapsed song.duration))

/-- The `/skip` command `Music.skip` (`src/cogs/music.py` lines 757-768):
errors out unless the transport is playing; demotes loop mode `one` to `off`;
stops the transport.  It does not touch `skip_next_callback`. -/
def skip (p : MusicPlayer) (is_playing : Bool) : MusicPlayer × List TransportAction :=
  if !is_playing then (p, [])
  else
    let p1 := if p.loop_mode = "one" then { p with loop_mode := "off" } else p
    (p1, [.stop p1.skip_next_callback p1.loop_mode])

/-- `Music.restart` (`src/cogs/music.py` lines 770-792): requires an active
transport and a current track; sets `skip_next_callback`, stops, then replays
the current track from offset 0 with `start_time = now`. -/
def restart (p : MusicPlayer) (playing_or_paused : Bool) (now : ℚ) :
    MusicPlayer × List TransportAction :=
  if !playing_or_paused then (p, [])
  else
    match p.current with
    | none => (p, [])
    | some cur =>
        let p1 := { p with skip_next_callback := true }
        ({ p1 with start_time := now, is_paused := false },
         [.stop true p1.loop_mode, .play cur.source 0])

/-- `Music.previous` (`src/cogs/music.py` lines 794-827): pop the most recent
history entry, push the current track back onto the queue front, and play the
popped track; when the transport was active, set `skip_next_callback` and stop
first. -/
def previous (p : MusicPlayer) (playing_or_paused : Bool) (now : ℚ) :
    MusicPlayer × List TransportAction :=
  match p.history.getLast? with
  | none => (p, [])
  | some prev =>
      let q := match p.current with
        | some cur => cur :: p.queue
        | none => p.queue
      let p1 := { p with history := p.history.dropLast, queue := q, current := some prev }
      if playing_or_paused then
        ({ p1 with skip_next_callback := true, start_time := now, is_paused := false },
         [.stop true p1.loop_mode, .play prev.source 0])
      else
        ({ p1 with start_time := now, is_paused := false }, [.play prev.source 0])

end Music

/-- The value of one decimal digit, `none` for any other character. -/
def pyDigitVal (c : Char) : Option Nat :=
  if c.isDigit then some (c.toNat - 48) else none

/-- Digit accumulation after at least one digit has been read, with Python
`int()`'s underscore rule: a single `_` may stand between two digits, never
doubled and never at the end. -/
def pyParseDigitsGo (acc : Nat) (afterUnderscore : Bool) : List Char → Option Nat
  | [] => if afterUnderscore then none else some acc
  | c :: rest =>
      if c = '_' then
        if afterUnderscore then none else pyParseDigitsGo acc true rest
      else
        match pyDigitVal c with
        | some d => pyParseDigitsGo (10 * acc + d) false rest
        | none => none

/-- Decimal digits with Python `int()`'s underscore separators: at least one
digit, each underscore strictly between digits. -/
def pyParseDigits (ds : List Char) : Option Nat :=
  match ds with
  | [] => none
  | c :: rest =>
      match pyDigitVal c with
      | some d => pyParseDigitsGo d false rest
      | none => none

/-- The leading/trailing-whitespace strip Python `int()` applies to its
string argument. -/
def pyStrip (ds : List Char) : List Char :=
  ((ds.dropWhile Char.isWhitespace).reverse.dropWhile Char.isWhitespace).reverse

/-- Python `int()` applied to one timestamp field: surrounding whitespace is
stripped, then an optional sign is followed by decimal digits with optional
single underscores between digits; a `ValueError` is `none`.  (Non-ASCII
digit forms, which Python also accepts, are not modelled.) -/
def pyParseInt (field : List Char) : Option Int :=
  match pyStrip field with
  | '-' :: ds => (pyParseDigits ds).map (fun n => -(n : Int))
  | '+' :: ds => (pyParseDigits ds).map (fun n => (n : Int))
  | ds => (pyParseDigits ds).map (fun n => (n : Int))

/-- The timestamp parse in `Music.seek` (`src/cogs/music.py` lines 954-964),
over the character sequence of the input: `MM:SS` when the split on `:` has
exactly two parts, else `H:MM:SS` from the first three parts — parts beyond
the third are never touched by the source's indexing, so they are not parsed
— and plain seconds when no colon occurs; `int()` is applied left to right
and its first `ValueError` aborts, modelled as `none`. -/
def parse_timestamp (timestamp : String) : Option Int :=
  if timestamp.data.contains ':' then
    match timestamp.data.splitOn ':' with
    | [a, b] =>
        (pyParseInt a).bind (fun x => (pyParseInt b).map (fun y => x * 60 + y))
    | a :: b :: c :: _ =>
        (pyParseInt a).bind (fun x => (pyParseInt b).bind (fun y =>
          (pyParseInt c).map (fun z => x * 3600 + y * 60 + z)))
    | _ => none
  else
    pyParseInt timestamp.data

/-- How `Music.seek` responded. -/
inductive SeekResult where
  /-- No transport playing or no current track: "Nothing is playing!". -/
  | nothingPlaying
  /-- `ValueError` from `int()`: "Invalid timestamp!". -/
  | invalidTimestamp
  /-- `seconds < 0 or seconds > duration`: "Timestamp must be between ...". -/
  | outOfRange
  /-- Seek performed at `seconds`. -/
  | ok (seconds : Int)
deriving DecidableEq, Repr

/-- The `/seek` command `Music.seek` (`src/cogs/music.py` lines 943-992):
validate, then set `skip_next_callback`, stop, and replay the current track
with `-ss seconds`, setting `start_time = now - seconds`.  All three reject
paths leave the player untouched and issue no transport call. -/
def Music.seek (p : MusicPlayer) (is_playing : Bool) (timestamp : String) (now : ℚ) :
    MusicPlayer × List Music.TransportAction × SeekResult :=
  if !is_playing then (p, [], .nothingPlaying)
  else
    match p.current with
    | none => (p, [], .nothingPlaying)
    | some cur =>
        match parse_timestamp timestamp with
        | none => (p, [], .invalidTimestamp)
        | some seconds =>
            if seconds < 0 ∨ cur.duration < seconds then (p, [], .outOfRange)
            else
              let p1 := { p with skip_next_callback := true }
              ({ p1 with start_time := now - (seconds : ℚ) },
               [.stop true p1.loop_mode, .play cur.source seconds],
               .ok seconds)

/-- One record of the orphan-message ledger `player_messages.json`:
`guild_id -> (channel_id, message_id)`. -/
structure LedgerEntry where
  guild_id : Nat
  channel_id : Nat
  message_id : Nat
deriving DecidableEq, Repr

/-- The environment's answer for one ledger entry during the startup sweep:
what `get_channel` / `fetch_message` / `delete` do for that entry. -/
inductive FetchOutcome where
  /-- `bot.get_channel` returned `None`. -/
  | channelMissing
  /-- Fetch and delete both succeeded. -/
  | deleted
  /-- `fetch_message` raised `discord.NotFound` (message already gone). -/
  | notFound
  /-- Delete raised `discord.Forbidden` (no permission). -/
  | forbidden
  /-- Some other exception was raised while handling the entry. -/
  | otherError
deriving DecidableEq, Repr

/-- Result of a Python block that may raise: `ok` or an uncaught exception. -/
inductive PyResult (α : Type) where
  | ok (a : α)
  | exn (name : String)
deriving DecidableEq, Repr

/-- How the sweep disposed of one ledger entry. -/
inductive EntryResult where
  /-- Channel not found: entry silently skipped. -/
  | skippedNoChannel
  /-- Message deleted, info logged. -/
  | cleaned
  /-- `discord.NotFound` swallowed by `pass`. -/
  | alreadyGone
  /-- `discord.Forbidden` swallowed with a warning log. -/
  | noPermission
  /-- Any other exception caught by the per-entry handler and error-logged. -/
  | loggedError
deriving DecidableEq, Repr

/-- The inner body handling one entry in `Music._cleanup_orphaned_messages`
(`src/cogs/music.py` lines 320-330): the `try` around fetch/delete catches
`discord.NotFound` (pass) and `discord.Forbidden` (warn); anything else
propagates. -/
def cleanup_entry (outcome : FetchOutcome) : PyResult EntryResult :=
  match outcome with
  | .channelMissing => .ok .skippedNoChannel
  | .deleted => .ok .cleaned
  | .notFound => .ok .alreadyGone
  | .forbidden => .ok .noPermission
  | .otherError => .exn "Exception"

/-- The per-entry `try/except Exception` (`src/cogs/music.py` lines 320-332):
whatever escapes the inner handlers is caught and error-logged, so handling an
entry never aborts the loop. -/
def cleanup_entry_guarded (outcome : FetchOutcome) : EntryResult :=
  match cleanup_entry outcome with
  | .ok r => r
  | .exn _ => .loggedError

/-- Outcome of the whole startup sweep. -/
structure SweepResult where
  ledger : List LedgerEntry
  results : List EntryResult
  errorEscaped : Bool
deriving DecidableEq, Repr

/-- The startup sweep `Music._cleanup_orphaned_messages` (`src/cogs/music.py`
lines 310-338).  `fileExists` models the `PLAYER_MESSAGES_FILE.exists()`
check (absent file = empty ledger, early return); `loadOk` models whether
`json.load` succeeds (a failure is caught by the outermost handler, leaving
the file unchanged).  When the ledger loads, every entry is processed through
the per-entry guard and the file is then reset to `{}`; the outermost
`try/except Exception` means no exception ever escapes the sweep. -/
def cleanup_orphaned_messages (fileExists loadOk : Bool) (ledger : List LedgerEntry)
    (env : LedgerEntry → FetchOutcome) : SweepResult :=
  if !fileExists then { ledger := [], results := [], errorEscaped := false }
  else if !loadOk then { ledger := ledger, results := [], errorEscaped := false }
  else
    { ledger := [],
      results := ledger.map (fun e => cleanup_entry_guarded (env e)),
      errorEscaped := false }

/-- Iterate the completion callback over a list of completion instants. -/
def play_next_iter (p : MusicPlayer) (times : List ℚ) : MusicPlayer :=
  times.foldl (fun q t => (Music.play_next q t).1) p

/-- Every completion in the run is classified non-premature at the state in
which it is processed. -/
def nonPrematureRun (p : MusicPlayer) : List ℚ → Bool
  | [] => true
  | t :: ts => !Music.prematureCheck p t && nonPrematureRun (Music.play_next p t).1 ts

/-- The skip button `PlayerView.skip_button` (`src/cogs/music.py`
lines 214-225): same state logic as `/skip` but also accepts a paused
transport.  Like `/skip`, it never sets `skip_next_callback`. -/
def PlayerView.skip_button (p : MusicPlayer) (is_playing is_paused : Bool) :
    MusicPlayer × List Music.TransportAction :=
  if !is_playing && !is_paused then (p, [])
  else
    let p1 := if p.loop_mode = "one" then { p with loop_mode := "off" } else p
    (p1, [.stop p1.skip_next_callback p1.loop_mode])

/-! Concrete tracks, players, and resolvers used in witnesses and
counterexamples. -/

def songA : Song := ⟨"streamA", "Track A", "urlA", 60, "thumbA"⟩

def songB : Song := ⟨"streamB", "Track B", "urlB", 45, "thumbB"⟩

def songC : Song := ⟨"streamC", "Track C", "urlC", 30, "thumbC"⟩

/-- The same logical track as `songA`, re-resolved with a fresh stream
locator. -/
def songFresh : Song := ⟨"streamFreshA", "Track A", "urlA", 60, "thumbA"⟩

def basePlayer : MusicPlayer :=
  { queue := [songB], history := [songC], current := some songA, volume := 1/2,
    loop_mode := "off", start_time := 1, paused_time := 0, is_paused := false,
    skip_next_callback := false, retry_count := 0 }

def loopAllPlayer : MusicPlayer := { basePlayer with loop_mode := "all" }

def loopOnePlayer : MusicPlayer := { basePlayer with loop_mode := "one", start_time := 100 }

def retryPlayer : MusicPlayer := { basePlayer with start_time := 100 }

def retryFailedPlayer : MusicPlayer := { basePlayer with start_time := 100, retry_count := 1 }

def cappedPlayer : MusicPlayer := { basePlayer with start_time := 100, retry_count := 2 }

/-- A resolver for which every re-resolution fails. -/
def resolveNone : String → Option Song := fun _ => none

/-- A resolver that answers the canonical URL of `songA` with the fresh
locator `songFresh`. -/
def resolveFresh : String → Option Song :=
  fun query => if query = "urlA" then some songFresh else none

/-- Two stale ledger entries for the sweep scenario of the spec. -/
def entryLive : LedgerEntry := ⟨1, 10, 100⟩

def entryGone : LedgerEntry := ⟨2, 20, 200⟩

/-- Sweep environment: `entryLive` still exists and is deleted;
`entryGone` was already deleted. -/
def sweepEnv : LedgerEntry → FetchOutcome :=
  fun e => if e = entryLive then FetchOutcome.deleted else FetchOutcome.notFound

/-! Helper lemmas shared by several claims. -/

lemma startNextFromQueue_snd_ne_retry (p : MusicPlayer) (now : ℚ) :
    (Music.startNextFromQueue p now).2 ≠ Music.PlayNextEffect.retryScheduled := by
  unfold Music.startNextFromQueue
  cases p.queue <;> simp

lemma startNextFromQueue_snd_ne_suppressed (p : MusicPlayer) (now : ℚ) :
    (Music.startNextFromQueue p now).2 ≠ Music.PlayNextEffect.suppressed := by
  unfold Music.startNextFromQueue
  cases p.queue <;> simp

/-- With the suppression flag clear, the completion callback schedules a retry
exactly when the premature-end guard fires. -/
lemma play_next_snd_retry_iff (p : MusicPlayer) (now : ℚ)
    (hflag : p.skip_next_callback = false) :
    ((Music.play_next p now).2 = Music.PlayNextEffect.retryScheduled ↔
      Music.prematureCheck p now = true) := by
  unfold Music.play_next
  rw [if_neg (by simp [hflag])]
  by_cases hp : Music.prematureCheck p now = true
  · simp [hp]
  · rw [if_neg hp]
    refine iff_of_false ?_ hp
    dsimp only
    split
    · split
      · simp
      · exact startNextFromQueue_snd_ne_retry _ now
    · exact startNextFromQueue_snd_ne_retry _ now

/-- The premature-end guard, unfolded to the spec-level formula, under the
gate conditions of the source. -/
lemma prematureCheck_true_iff (p : MusicPlayer) (now : ℚ) (cur : Song)
    (hcur : p.current = some cur) (hst : 0 < p.start_time) (hrc : p.retry_count < 2) :
    (Music.prematureCheck p now = true ↔
      ((now - p.start_time < 15 ∧ 20 < (cur.duration : ℚ)) ∨
       (0 < (cur.duration : ℚ) ∧ now - p.start_time < (cur.duration : ℚ) * (0.2 : ℚ) ∧
        now - p.start_time < 30))) := by
  simp [Music.prematureCheck, hcur, Music.is_premature_end, hst, hrc, and_assoc]

lemma is_premature_end_ten_sixty : Music.is_premature_end 10 60 = true := by
  norm_num [Music.is_premature_end]

lemma is_premature_end_eighteen_sixty : Music.is_premature_end 18 60 = false := by
  norm_num [Music.is_premature_end]

lemma is_premature_end_five_ten : Music.is_premature_end 5 10 = false := by
  norm_num [Music.is_premature_end]

/-- A non-suppressed, non-premature completion under loop mode `one` only
resets the retry counter and restamps `start_time`; every other field is
untouched. -/
lemma play_next_loop_one_step (p : MusicPlayer) (t : ℚ)
    (hloop : p.loop_mode = "one") (hcur : p.current.isSome)
    (hflag : p.skip_next_callback = false) (hnp : Music.prematureCheck p t = false) :
    (Music.play_next p t).1 = { p with retry_count := 0, start_time := t } := by
  obtain ⟨cur, hc⟩ := Option.isSome_iff_exists.mp hcur
  unfold Music.play_next
  rw [if_neg (by simp [hflag]), if_neg (by simp [hnp])]
  dsimp only
  rw [hc]
  dsimp only
  rw [if_pos hloop]

/-- C1: On transport completion with a current track, positive start time and
fewer than two retries (and the suppression flag clear), the completion is
classified as premature — scheduling a retry — exactly when
`(elapsed < 15 ∧ duration > 20) ∨ (duration > 0 ∧ elapsed < 0.2·duration ∧
elapsed < 30)`; in particular elapsed 10 of 60 is premature, 18 of 60 is not,
and 5 of 10 is not. -/
theorem c1_premature_classification (p : MusicPlayer) (now : ℚ) (cur : Song)
    (hcur : p.current = some cur) (hst : 0 < p.start_time)
    (hrc : p.retry_count < 2) (hflag : p.skip_next_callback = false) :
    ((Music.play_next p now).2 = Music.PlayNextEffect.retryScheduled ↔
      ((now - p.start_time < 15 ∧ 20 < (cur.duration : ℚ)) ∨
       (0 < (cur.duration : ℚ) ∧ now - p.start_time < (cur.duration : ℚ) * (0.2 : ℚ) ∧
        now - p.start_time < 30))) ∧
    Music.is_premature_end 10 60 = true ∧
    Music.is_premature_end 18 60 = false ∧
    Music.is_premature_end 5 10 = false := by
  refine ⟨?_, is_premature_end_ten_sixty, is_premature_end_eighteen_sixty,
    is_premature_end_five_ten⟩
  rw [play_next_snd_retry_iff p now hflag]
  exact prematureCheck_true_iff p now cur hcur hst hrc

/-- Witness for C1: the gate holds for `retryPlayer` at time 110, the
completion (elapsed 10 of duration 60) is classified premature, and the three
boundary examples evaluate as the claim states. -/
theorem c1_premature_classification_witness :
    retryPlayer.current = some songA ∧ 0 < retryPlayer.start_time ∧
    retryPlayer.retry_count < 2 ∧ retryPlayer.skip_next_callback = false ∧
    (((Music.play_next retryPlayer 110).2 = Music.PlayNextEffect.retryScheduled ↔
      ((110 - retryPlayer.start_time < 15 ∧ 20 < ((songA.duration : ℚ))) ∨
       (0 < ((songA.duration : ℚ)) ∧
        110 - retryPlayer.start_time < ((songA.duration : ℚ)) * (0.2 : ℚ) ∧
        110 - retryPlayer.start_time < 30))) ∧
     Music.is_premature_end 10 60 = true ∧
     Music.is_premature_end 18 60 = false ∧
     Music.is_premature_end 5 10 = false) :=
  ⟨rfl, by decide, by decide, rfl,
   c1_premature_classification retryPlayer 110 songA rfl (by decide) (by decide) rfl⟩

lemma startNextFromQueue_fst_retry_count (p : MusicPlayer) (now : ℚ) :
    (Music.startNextFromQueue p now).1.retry_count = p.retry_count := by
  unfold Music.startNextFromQueue
  cases p.queue <;> simp

/-- When neither suppressed nor classified premature, the callback resets the
retry counter (line 469) and the rest of the advance never changes it. -/
lemma play_next_fst_retry_count (p : MusicPlayer) (now : ℚ)
    (hflag : p.skip_next_callback = false) (hcheck : Music.prematureCheck p now = false) :
    (Music.play_next p now).1.retry_count = 0 := by
  unfold Music.play_next
  rw [if_neg (by simp [hflag]), if_neg (by simp [hcheck])]
  dsimp only
  split
  · split
    · rfl
    · rw [startNextFromQueue_fst_retry_count]
      split <;> rfl
  · rw [startNextFromQueue_fst_retry_count]

/-- With neither suppression nor a premature classification, the callback's
effect is one of the advance outcomes. -/
lemma play_next_snd_advances (p : MusicPlayer) (now : ℚ)
    (hflag : p.skip_next_callback = false) (hcheck : Music.prematureCheck p now = false) :
    (Music.play_next p now).2 ≠ Music.PlayNextEffect.retryScheduled ∧
    (Music.play_next p now).2 ≠ Music.PlayNextEffect.suppressed := by
  unfold Music.play_next
  rw [if_neg (by simp [hflag]), if_neg (by simp [hcheck])]
  dsimp only
  refine ⟨?_, ?_⟩ <;>
  · split
    · split
      · simp
      · first
        | exact startNextFromQueue_snd_ne_retry _ now
        | exact startNextFromQueue_snd_ne_suppressed _ now
    · first
      | exact startNextFromQueue_snd_ne_retry _ now
      | exact startNextFromQueue_snd_ne_suppressed _ now

/-- C4: once a track has been retried twice (`retry_count = 2`), the next
completion for it is never classified for another retry: the callback runs the
normal advance logic (it is not suppressed, schedules no retry) and resets the
retry counter to 0. -/
theorem c4_retry_capped (p : MusicPlayer) (now : ℚ)
    (hrc : p.retry_count = 2) (hflag : p.skip_next_callback = false) :
    (Music.play_next p now).2 ≠ Music.PlayNextEffect.retryScheduled ∧
    (Music.play_next p now).2 ≠ Music.PlayNextEffect.suppressed ∧
    (Music.play_next p now).1.retry_count = 0 := by
  have hcheck : Music.prematureCheck p now = false := by
    unfold Music.prematureCheck
    cases hc : p.current with
    | none => rfl
    | some cur => simp [hrc]
  obtain ⟨h1, h2⟩ := play_next_snd_advances p now hflag hcheck
  exact ⟨h1, h2, play_next_fst_retry_count p now hflag hcheck⟩

/-- Witness for C4: `cappedPlayer` has `retry_count = 2`; its completion at
time 105 (elapsed 5 of 60, which would otherwise classify premature) advances
and resets the counter. -/
theorem c4_retry_capped_witness :
    cappedPlayer.retry_count = 2 ∧ cappedPlayer.skip_next_callback = false ∧
    ((Music.play_next cappedPlayer 105).2 ≠ Music.PlayNextEffect.retryScheduled ∧
     (Music.play_next cappedPlayer 105).2 ≠ Music.PlayNextEffect.suppressed ∧
     (Music.play_next cappedPlayer 105).1.retry_count = 0) :=
  ⟨rfl, rfl, c4_retry_capped cappedPlayer 105 rfl rfl⟩

lemma mem_historyAppend {h : List Song} {s x : Song} (hx : x ∈ historyAppend h s) :
    x ∈ h ∨ x = s := by
  unfold historyAppend at hx
  dsimp only at hx
  split at hx
  · rcases List.mem_append.mp (List.mem_of_mem_drop hx) with h1 | h1
    · exact Or.inl h1
    · exact Or.inr (List.mem_singleton.mp h1)
  · rcases List.mem_append.mp hx with h1 | h1
    · exact Or.inl h1
    · exact Or.inr (List.mem_singleton.mp h1)

/-- C3 counterexample: `loopAllPlayer` starts with disjoint queue `[songB]`
and history `[songC]` and loop mode `all`; after one ordinary completion at
time 1000 the finished track `songA` sits in the queue and in the history at
the same instant, so the disjointness invariant is false. -/
theorem c3_loop_all_counterexample :
    loopAllPlayer.queue.inter loopAllPlayer.history = [] ∧
    songA ∈ (Music.play_next loopAllPlayer 1000).1.queue ∧
    songA ∈ (Music.play_next loopAllPlayer 1000).1.history := by
  refine ⟨rfl, ?_, ?_⟩ <;>
    norm_num [Music.play_next, Music.prematureCheck, Music.is_premature_end,
      Music.startNextFromQueue, historyAppend, loopAllPlayer, basePlayer,
      songA, songB, songC] <;>
    decide

/-- C3 (amended): the queue and the history can share an element: a completion
processed with loop mode `all` appends the finished track to both (see the
counterexample).  When the loop mode is not `all`, a completion preserves
disjointness, provided the current track is in neither list. -/
theorem c3_queue_history_disjoint_amended (p : MusicPlayer) (now : ℚ)
    (hloop : p.loop_mode ≠ "all")
    (hdisj : ∀ x ∈ p.queue, x ∉ p.history)
    (hcur : ∀ cur, p.current = some cur → cur ∉ p.queue ∧ cur ∉ p.history) :
    ∀ x ∈ (Music.play_next p now).1.queue, x ∉ (Music.play_next p now).1.history := by
  unfold Music.play_next
  by_cases hflag : p.skip_next_callback = true
  · rw [if_pos hflag]
    exact hdisj
  · rw [if_neg hflag]
    by_cases hp : Music.prematureCheck p now = true
    · rw [if_pos hp]
      exact hdisj
    · rw [if_neg hp]
      dsimp only
      split
      · next cur heq =>
          have hcq := (hcur cur heq).1
          have hch := (hcur cur heq).2
          split
          · exact hdisj
          · unfold Music.startNextFromQueue
            split
            · intro x hx hmem
              rcases mem_historyAppend hmem with h1 | h1
              · exact hdisj x hx h1
              · exact hcq (h1 ▸ hx)
            · next s rest hq =>
                intro x hx hmem
                have hxq : x ∈ p.queue := by
                  rw [hq]
                  exact List.mem_cons_of_mem s hx
                rcases mem_historyAppend hmem with h1 | h1
                · exact hdisj x hxq h1
                · exact hcq (h1 ▸ hxq)
      · unfold Music.startNextFromQueue
        split
        · exact hdisj
        · next s rest hq =>
            intro x hx hmem
            exact hdisj x (by rw [hq]; exact List.mem_cons_of_mem s hx) hmem

/-- Witness for C3 (amended): a loop-`off` completion of `basePlayer` at time
1000 keeps the queue and the history disjoint. -/
theorem c3_queue_history_disjoint_amended_witness :
    basePlayer.loop_mode ≠ "all" ∧
    (∀ x ∈ basePlayer.queue, x ∉ basePlayer.history) ∧
    (∀ cur, basePlayer.current = some cur → cur ∉ basePlayer.queue ∧ cur ∉ basePlayer.history) ∧
    (∀ x ∈ (Music.play_next basePlayer 1000).1.queue,
      x ∉ (Music.play_next basePlayer 1000).1.history) :=
  ⟨by decide, by decide, by decide,
   c3_queue_history_disjoint_amended basePlayer 1000 (by decide) (by decide) (by decide)⟩

/-- C6: with loop mode `one` and a current track, any run of non-premature,
non-suppressed completions leaves the current track, the queue, and the
history all unchanged. -/
theorem c6_loop_one_frame (p : MusicPlayer) (times : List ℚ)
    (hloop : p.loop_mode = "one") (hcur : p.current.isSome)
    (hflag : p.skip_next_callback = false)
    (hnp : nonPrematureRun p times = true) :
    (play_next_iter p times).current = p.current ∧
    (play_next_iter p times).queue = p.queue ∧
    (play_next_iter p times).history = p.history := by
  induction times generalizing p with
  | nil => exact ⟨rfl, rfl, rfl⟩
  | cons t ts ih =>
      rw [nonPrematureRun, Bool.and_eq_true, Bool.not_eq_true'] at hnp
      obtain ⟨hnp1, hnp2⟩ := hnp
      have hstep := play_next_loop_one_step p t hloop hcur hflag hnp1
      have hrec := ih { p with retry_count := 0, start_time := t }
        hloop hcur hflag (by rw [← hstep]; exact hnp2)
      unfold play_next_iter at hrec ⊢
      rw [List.foldl_cons, hstep]
      exact hrec

lemma loopOnePlayer_nonPremature : nonPrematureRun loopOnePlayer [150, 200] = true := by
  norm_num [nonPrematureRun, Music.play_next, Music.prematureCheck,
    Music.is_premature_end, Music.startNextFromQueue, loopOnePlayer, basePlayer, songA]

/-- Witness for C6: two non-premature completions of `loopOnePlayer` (at times
150 and 200, long past its start time 100) leave current, queue and history
as they were. -/
theorem c6_loop_one_frame_witness :
    loopOnePlayer.loop_mode = "one" ∧ loopOnePlayer.current.isSome = true ∧
    loopOnePlayer.skip_next_callback = false ∧
    nonPrematureRun loopOnePlayer [150, 200] = true ∧
    ((play_next_iter loopOnePlayer [150, 200]).current = loopOnePlayer.current ∧
     (play_next_iter loopOnePlayer [150, 200]).queue = loopOnePlayer.queue ∧
     (play_next_iter loopOnePlayer [150, 200]).history = loopOnePlayer.history) :=
  ⟨rfl, rfl, rfl, loopOnePlayer_nonPremature,
   c6_loop_one_frame loopOnePlayer [150, 200] rfl rfl rfl loopOnePlayer_nonPremature⟩

/-- C7: for a playing session (positive start time, not paused), pausing at
`now1` and resuming at `now2` leaves the displayed elapsed time unchanged:
the display immediately after the resume equals the display immediately
before the pause — the pause interval is added onto `start_time` and so
excluded from the elapsed accounting. -/
theorem c7_pause_resume_elapsed (p : MusicPlayer) (now1 now2 : ℚ)
    (hst : 0 < p.start_time) (hpause : p.is_paused = false) (hle : now1 ≤ now2) :
    Music.display_elapsed (Music.resume (Music.pause p now1) now2) now2 =
      Music.display_elapsed p now1 := by
  have h1 : p.start_time ≠ 0 := ne_of_gt hst
  have h2 : p.start_time + (now2 - now1) ≠ 0 := ne_of_gt (by linarith)
  unfold Music.display_elapsed Music.pause Music.resume
  dsimp only
  split
  · rfl
  · simp only [hpause, Bool.false_eq_true, if_false, if_neg h1, if_neg h2]
    have harg : now2 - (p.start_time + (now2 - now1)) = now1 - p.start_time := by ring
    rw [harg]

/-- Witness for C7: `basePlayer` paused at time 10 and resumed at time 25
shows the same elapsed display (9 seconds into `songA`) before and after. -/
theorem c7_pause_resume_elapsed_witness :
    0 < basePlayer.start_time ∧ basePlayer.is_paused = false ∧ (10 : ℚ) ≤ 25 ∧
    Music.display_elapsed (Music.resume (Music.pause basePlayer 10) 25) 25 =
      Music.display_elapsed basePlayer 10 :=
  ⟨by decide, rfl, by decide,
   c7_pause_resume_elapsed basePlayer 10 25 (by decide) rfl (by decide)⟩

lemma startNextFromQueue_snd_ne_loopOne (p : MusicPlayer) (now : ℚ) :
    (Music.startNextFromQueue p now).2 ≠ Music.PlayNextEffect.loopOne := by
  unfold Music.startNextFromQueue
  cases p.queue <;> simp

/-- Once the loop mode is not `one`, no completion replays the current track
via the loop-`one` branch. -/
lemma play_next_snd_ne_loopOne (p : MusicPlayer) (t : ℚ)
    (hloop : p.loop_mode ≠ "one") :
    (Music.play_next p t).2 ≠ Music.PlayNextEffect.loopOne := by
  unfold Music.play_next
  split
  · simp
  · split
    · simp
    · dsimp only
      split
      · split
        · next h => exact absurd h hloop
        · exact startNextFromQueue_snd_ne_loopOne _ t
      · exact startNextFromQueue_snd_ne_loopOne _ t

/-- C9: both skip entry points (`/skip` and the player-view skip button),
when the loop mode is `one`, silently demote it to `off` before stopping the
transport: the stop action is issued with the loop mode already `off`, and the
subsequent completion callback can no longer take the loop-`one` replay
branch, so the skipped track is not replayed. -/
theorem c9_skip_demotes_loop_one (p : MusicPlayer) (b : Bool) (t : ℚ)
    (hloop : p.loop_mode = "one") (hflag : p.skip_next_callback = false) :
    (Music.skip p true).1.loop_mode = "off" ∧
    (Music.skip p true).2 = [Music.TransportAction.stop false "off"] ∧
    (PlayerView.skip_button p true b).1.loop_mode = "off" ∧
    (PlayerView.skip_button p true b).2 = [Music.TransportAction.stop false "off"] ∧
    (Music.play_next (Music.skip p true).1 t).2 ≠ Music.PlayNextEffect.loopOne := by
  refine ⟨?_, ?_, ?_, ?_, ?_⟩
  · simp [Music.skip, hloop]
  · simp [Music.skip, hloop, hflag]
  · simp [PlayerView.skip_button, hloop]
  · simp [PlayerView.skip_button, hloop, hflag]
  · refine play_next_snd_ne_loopOne _ t ?_
    simp [Music.skip, hloop]

/-- Witness for C9: skipping `loopOnePlayer` demotes its loop mode and a later
completion (at time 300) does not replay the skipped track. -/
theorem c9_skip_demotes_loop_one_witness :
    loopOnePlayer.loop_mode = "one" ∧ loopOnePlayer.skip_next_callback = false ∧
    ((Music.skip loopOnePlayer true).1.loop_mode = "off" ∧
     (Music.skip loopOnePlayer true).2 = [Music.TransportAction.stop false "off"] ∧
     (PlayerView.skip_button loopOnePlayer true false).1.loop_mode = "off" ∧
     (PlayerView.skip_button loopOnePlayer true false).2 =
       [Music.TransportAction.stop false "off"] ∧
     (Music.play_next (Music.skip loopOnePlayer true).1 300).2 ≠
       Music.PlayNextEffect.loopOne) :=
  ⟨rfl, rfl, c9_skip_demotes_loop_one loopOnePlayer false 300 rfl rfl⟩

/-- C10: with a current track loaded, `/seek` rejects an unparsable timestamp
and any offset strictly below 0 or strictly above the track duration, leaving
the player state untouched and issuing no transport call; only an offset
within `[0, duration]` reaches the suppressed stop and the transport restart
at that offset. -/
theorem c10_seek_validation (p : MusicPlayer) (timestamp : String) (now : ℚ)
    (cur : Song) (s : Int) (hcur : p.current = some cur) :
    (parse_timestamp timestamp = none →
      Music.seek p true timestamp now = (p, [], SeekResult.invalidTimestamp)) ∧
    (parse_timestamp timestamp = some s → (s < 0 ∨ cur.duration < s) →
      Music.seek p true timestamp now = (p, [], SeekResult.outOfRange)) ∧
    (parse_timestamp timestamp = some s → 0 ≤ s → s ≤ cur.duration →
      Music.seek p true timestamp now =
        ({ p with skip_next_callback := true, start_time := now - (s : ℚ) },
         [Music.TransportAction.stop true p.loop_mode,
          Music.TransportAction.play cur.source s], SeekResult.ok s)) := by
  refine ⟨?_, ?_, ?_⟩
  · intro hts
    simp [Music.seek, hcur, hts]
  · intro hts hor
    simp only [Music.seek, Bool.not_true, Bool.false_eq_true, if_false, hcur, hts]
    rw [if_pos hor]
  · intro hts hs0 hsd
    simp only [Music.seek, Bool.not_true, Bool.false_eq_true, if_false, hcur, hts]
    rw [if_neg (not_or.mpr ⟨not_lt.mpr hs0, not_lt.mpr hsd⟩)]

lemma parse_timestamp_half_minute : parse_timestamp "0:30" = some 30 := by
  decide

/-- Colon parts beyond the third are ignored, as in the source: `1:2:3:x`
raises no `ValueError` and seeks to 3723 seconds. -/
lemma parse_timestamp_extra_parts : parse_timestamp "1:2:3:x" = some 3723 := by
  decide

/-- Python `int()` strips surrounding whitespace: ` 30` is a valid seek. -/
lemma parse_timestamp_padded : parse_timestamp " 30" = some 30 := by
  decide

/-- Python `int()` accepts single underscores between digits: `1_0` is 10. -/
lemma parse_timestamp_underscore : parse_timestamp "1_0" = some 10 := by
  decide

/-- Underscore and sign misuses still raise `ValueError`, as in Python:
doubled or trailing underscores and an inner space are rejected. -/
lemma parse_timestamp_invalid_forms :
    parse_timestamp "1__0" = none ∧ parse_timestamp "10_" = none ∧
    parse_timestamp "- 5" = none ∧ parse_timestamp "" = none := by
  refine ⟨by decide, by decide, by decide, by decide⟩

/-- Witness for C10: seeking `basePlayer` (current track of duration 60) to
`0:30` passes validation and restarts the transport at offset 30 with the
suppression flag set. -/
theorem c10_seek_validation_witness :
    basePlayer.current = some songA ∧
    ((parse_timestamp "0:30" = none →
      Music.seek basePlayer true "0:30" 500 = (basePlayer, [], SeekResult.invalidTimestamp)) ∧
     (parse_timestamp "0:30" = some 30 → ((30 : Int) < 0 ∨ songA.duration < 30) →
      Music.seek basePlayer true "0:30" 500 = (basePlayer, [], SeekResult.outOfRange)) ∧
     (parse_timestamp "0:30" = some 30 → (0 : Int) ≤ 30 → (30 : Int) ≤ songA.duration →
      Music.seek basePlayer true "0:30" 500 =
        ({ basePlayer with skip_next_callback := true, start_time := 500 - ((30 : Int) : ℚ) },
         [Music.TransportAction.stop true basePlayer.loop_mode,
          Music.TransportAction.play songA.source 30], SeekResult.ok 30))) :=
  ⟨rfl, c10_seek_validation basePlayer "0:30" 500 songA 30 rfl⟩

/-- C2 counterexample: skipping `basePlayer` (suppression flag clear) issues a
transport stop with the flag still clear and leaves it clear afterwards, for
both the `/skip` command and the skip button — so skip does not set
`skip_next_callback` before its stop. -/
theorem c2_skip_counterexample :
    basePlayer.skip_next_callback = false ∧
    (Music.skip basePlayer true).2 = [Music.TransportAction.stop false "off"] ∧
    (Music.skip basePlayer true).1.skip_next_callback = false ∧
    (PlayerView.skip_button basePlayer true false).2 =
      [Music.TransportAction.stop false "off"] ∧
    (PlayerView.skip_button basePlayer true false).1.skip_next_callback = false := by
  refine ⟨rfl, by decide, by decide, by decide, by decide⟩

/-- C2 (amended): restart, seek, and previous set the suppression flag before
issuing the transport stop — each stop they issue carries the flag already
set — whereas skip (command and button) never touches the flag: its stop
carries the unchanged flag and the completion callback then runs the normal
advance logic. -/
theorem c2_suppressed_stop_amended (p : MusicPlayer) (now : ℚ) (timestamp : String)
    (cur prev : Song) (s : Int) (b : Bool)
    (hcur : p.current = some cur)
    (hts : parse_timestamp timestamp = some s) (hs0 : 0 ≤ s) (hsd : s ≤ cur.duration)
    (hprev : p.history.getLast? = some prev) :
    ((Music.restart p true now).2 =
       [Music.TransportAction.stop true p.loop_mode,
        Music.TransportAction.play cur.source 0] ∧
     (Music.restart p true now).1.skip_next_callback = true) ∧
    ((Music.seek p true timestamp now).2.1 =
       [Music.TransportAction.stop true p.loop_mode,
        Music.TransportAction.play cur.source s] ∧
     (Music.seek p true timestamp now).1.skip_next_callback = true) ∧
    ((Music.previous p true now).2 =
       [Music.TransportAction.stop true p.loop_mode,
        Music.TransportAction.play prev.source 0] ∧
     (Music.previous p true now).1.skip_next_callback = true) ∧
    ((Music.skip p true).2 =
       [Music.TransportAction.stop p.skip_next_callback
         (if p.loop_mode = "one" then "off" else p.loop_mode)] ∧
     (Music.skip p true).1.skip_next_callback = p.skip_next_callback) ∧
    ((PlayerView.skip_button p true b).2 =
       [Music.TransportAction.stop p.skip_next_callback
         (if p.loop_mode = "one" then "off" else p.loop_mode)] ∧
     (PlayerView.skip_button p true b).1.skip_next_callback = p.skip_next_callback) := by
  refine ⟨⟨?_, ?_⟩, ⟨?_, ?_⟩, ⟨?_, ?_⟩, ?_, ?_⟩
  · simp [Music.restart, hcur]
  · simp [Music.restart, hcur]
  · simp only [Music.seek, Bool.not_true, Bool.false_eq_true, if_false, hcur, hts]
    rw [if_neg (not_or.mpr ⟨not_lt.mpr hs0, not_lt.mpr hsd⟩)]
  · simp only [Music.seek, Bool.not_true, Bool.false_eq_true, if_false, hcur, hts]
    rw [if_neg (not_or.mpr ⟨not_lt.mpr hs0, not_lt.mpr hsd⟩)]
  · simp [Music.previous, hprev]
  · simp [Music.previous, hprev]
  · by_cases hl : p.loop_mode = "one" <;> simp [Music.skip, hl]
  · by_cases hl : p.loop_mode = "one" <;> simp [PlayerView.skip_button, hl]

/-- Witness for C2 (amended): the five conjuncts instantiated on `basePlayer`
with timestamp `0:30`, previous track `songC`, and offset 30. -/
theorem c2_suppressed_stop_amended_witness :
    basePlayer.current = some songA ∧
    parse_timestamp "0:30" = some 30 ∧ (0 : Int) ≤ 30 ∧ (30 : Int) ≤ songA.duration ∧
    basePlayer.history.getLast? = some songC ∧
    (((Music.restart basePlayer true 7).2 =
        [Music.TransportAction.stop true basePlayer.loop_mode,
         Music.TransportAction.play songA.source 0] ∧
      (Music.restart basePlayer true 7).1.skip_next_callback = true) ∧
     ((Music.seek basePlayer true "0:30" 7).2.1 =
        [Music.TransportAction.stop true basePlayer.loop_mode,
         Music.TransportAction.play songA.source 30] ∧
      (Music.seek basePlayer true "0:30" 7).1.skip_next_callback = true) ∧
     ((Music.previous basePlayer true 7).2 =
        [Music.TransportAction.stop true basePlayer.loop_mode,
         Music.TransportAction.play songC.source 0] ∧
      (Music.previous basePlayer true 7).1.skip_next_callback = true) ∧
     ((Music.skip basePlayer true).2 =
        [Music.TransportAction.stop basePlayer.skip_next_callback
          (if basePlayer.loop_mode = "one" then "off" else basePlayer.loop_mode)] ∧
      (Music.skip basePlayer true).1.skip_next_callback = basePlayer.skip_next_callback) ∧
     ((PlayerView.skip_button basePlayer true false).2 =
        [Music.TransportAction.stop basePlayer.skip_next_callback
          (if basePlayer.loop_mode = "one" then "off" else basePlayer.loop_mode)] ∧
      (PlayerView.skip_button basePlayer true false).1.skip_next_callback =
        basePlayer.skip_next_callback)) :=
  ⟨rfl, parse_timestamp_half_minute, by decide, by decide, rfl,
   c2_suppressed_stop_amended basePlayer 7 "0:30" songA songC 30 false rfl
     parse_timestamp_half_minute (by decide) (by decide) rfl⟩

/-- C5 counterexample: after a failed retry of `retryFailedPlayer` (a 60s
track that started at time 100), the failed re-resolution at time 106.5
resets `retry_count` to 0 and re-enters the completion handler — which
classifies the completion premature again and schedules another retry with
`retry_count` back at 1, rather than falling through to a normal advance. -/
theorem c5_retry_failure_counterexample :
    (Music.retry_current_song retryFailedPlayer true resolveNone (213/2)).2.2 =
      Music.RetryEffect.resolutionFailed Music.PlayNextEffect.retryScheduled ∧
    (Music.retry_current_song retryFailedPlayer true resolveNone (213/2)).1.retry_count = 1 := by
  constructor <;>
    norm_num [Music.retry_current_song, Music.play_next, Music.prematureCheck,
      Music.is_premature_end, resolveNone, retryFailedPlayer, basePlayer, songA]

/-- C5 (amended): a premature completion increments `retry_count` and
schedules a retry; the retry, after the fixed 1-second backoff, re-resolves
the same logical track by its canonical URL and, on success, restarts
playback at offset 0 with the fresh stream locator; on failure it resets
`retry_count` to 0 and re-enters the completion handler — which advances
normally only when the elapsed time no longer classifies as premature, and
otherwise schedules another retry. -/
theorem c5_premature_retry_amended (p : MusicPlayer) (now later : ℚ)
    (cur fresh : Song) (resolve : String → Option Song)
    (hcur : p.current = some cur) (hflag : p.skip_next_callback = false)
    (hprem : Music.prematureCheck p now = true) :
    Music.play_next p now =
      ({ p with retry_count := p.retry_count + 1 }, Music.PlayNextEffect.retryScheduled) ∧
    Music.RETRY_BACKOFF = 1 ∧
    (resolve cur.url = some fresh →
      Music.retry_current_song p true resolve later =
        ({ p with current := some fresh, start_time := later },
         [Music.TransportAction.play fresh.source 0],
         Music.RetryEffect.restarted cur.url fresh)) ∧
    (resolve cur.url = none →
      Music.retry_current_song p true resolve later =
        ((Music.play_next { p with retry_count := 0 } later).1, [],
         Music.RetryEffect.resolutionFailed
           (Music.play_next { p with retry_count := 0 } later).2)) := by
  refine ⟨?_, rfl, ?_, ?_⟩
  · unfold Music.play_next
    rw [if_neg (by simp [hflag]), if_pos hprem]
  · intro hres
    simp [Music.retry_current_song, hcur, hres]
  · intro hres
    simp [Music.retry_current_song, hcur, hres]

lemma retryPlayer_premature : Music.prematureCheck retryPlayer 105 = true := by
  norm_num [Music.prematureCheck, Music.is_premature_end, retryPlayer, basePlayer, songA]

/-- Witness for C5 (amended): `retryPlayer` completing prematurely at time 105
schedules a retry; re-resolving through `resolveFresh` restarts `songFresh`
from offset 0 at time 107. -/
theorem c5_premature_retry_amended_witness :
    retryPlayer.current = some songA ∧ retryPlayer.skip_next_callback = false ∧
    Music.prematureCheck retryPlayer 105 = true ∧
    (Music.play_next retryPlayer 105 =
      ({ retryPlayer with retry_count := retryPlayer.retry_count + 1 },
       Music.PlayNextEffect.retryScheduled) ∧
     Music.RETRY_BACKOFF = 1 ∧
     (resolveFresh songA.url = some songFresh →
      Music.retry_current_song retryPlayer true resolveFresh 107 =
        ({ retryPlayer with current := some songFresh, start_time := 107 },
         [Music.TransportAction.play songFresh.source 0],
         Music.RetryEffect.restarted songA.url songFresh)) ∧
     (resolveFresh songA.url = none →
      Music.retry_current_song retryPlayer true resolveFresh 107 =
        ((Music.play_next { retryPlayer with retry_count := 0 } 107).1, [],
         Music.RetryEffect.resolutionFailed
           (Music.play_next { retryPlayer with retry_count := 0 } 107).2))) :=
  ⟨rfl, rfl, retryPlayer_premature,
   c5_premature_retry_amended retryPlayer 105 107 songA songFresh resolveFresh rfl rfl
     retryPlayer_premature⟩

/-- C8: the startup sweep, when the ledger file exists and loads, processes
every recorded entry through the per-entry guard, treats "already gone" and
"forbidden" as tolerated non-error outcomes, resets the ledger to empty
regardless of the per-entry outcomes, and lets no error escape (also not when
the file is absent or fails to load); in the spec's two-entry scenario (one
message still live, one already deleted) both entries leave the ledger and
nothing escapes. -/
theorem c8_sweep_resets_ledger (ledger : List LedgerEntry)
    (env : LedgerEntry → FetchOutcome) :
    (cleanup_orphaned_messages true true ledger env).ledger = [] ∧
    (cleanup_orphaned_messages true true ledger env).errorEscaped = false ∧
    (cleanup_orphaned_messages true true ledger env).results =
      ledger.map (fun e => cleanup_entry_guarded (env e)) ∧
    cleanup_entry_guarded FetchOutcome.notFound = EntryResult.alreadyGone ∧
    cleanup_entry_guarded FetchOutcome.forbidden = EntryResult.noPermission ∧
    cleanup_entry_guarded FetchOutcome.otherError = EntryResult.loggedError ∧
    (cleanup_orphaned_messages false true ledger env).errorEscaped = false ∧
    (cleanup_orphaned_messages true false ledger env).errorEscaped = false ∧
    (cleanup_orphaned_messages true true [entryLive, entryGone] sweepEnv).ledger = [] ∧
    (cleanup_orphaned_messages true true [entryLive, entryGone] sweepEnv).results =
      [EntryResult.cleaned, EntryResult.alreadyGone] ∧
    (cleanup_orphaned_messages true true [entryLive, entryGone] sweepEnv).errorEscaped =
      false := by
  refine ⟨rfl, rfl, rfl, rfl, rfl, rfl, rfl, rfl, by decide, by decide, by decide⟩

